import Mathlib

/-!
# Verification of the Imara widget repository

Shallow embedding of the four custom elements of this repository
(`ImaraButton` in `imara-button.js`, `ImaraInput` in `imara-input.js`,
`ImaraTexteria` in `texteria.js`, `ImaraContainer` in `imara-container.js`)
and proofs about the attribute/state synchronization contract they share.

The DOM is modelled explicitly: an element's attribute set is an
association list from names to string values (boolean attributes are
presence-only, so presence of any string value counts), the inner native
controls are records of the fields the components read and write, and
event dispatch is modelled by returning the list of custom events a
handler emits before it returns.  Fallible code (the uncaught
`new RegExp(pattern)` construction) is threaded through `Except`.
-/

set_option autoImplicit false

namespace Imara

/-- An element's attribute set: a name-to-value association list.
`getAttribute` returns `none` for an absent attribute (JS `null`). -/
abbrev Attrs : Type := List (String × String)

/-- `getAttribute`: first binding of the name, if any. -/
def getAttr (a : Attrs) (n : String) : Option String :=
  match a with
  | [] => none
  | (m, w) :: rest => if m = n then some w else getAttr rest n

/-- `hasAttribute`. -/
def hasAttr (a : Attrs) (n : String) : Bool :=
  (getAttr a n).isSome

/-- `setAttribute`: replace the binding if present, append otherwise. -/
def setAttr (a : Attrs) (n v : String) : Attrs :=
  match a with
  | [] => [(n, v)]
  | (m, w) :: rest => if m = n then (n, v) :: rest else (m, w) :: setAttr rest n v

/-- `removeAttribute`. -/
def removeAttr (a : Attrs) (n : String) : Attrs :=
  match a with
  | [] => []
  | (m, w) :: rest => if m = n then removeAttr rest n else (m, w) :: removeAttr rest n

/-- JS `x || d` for a nullable string `x`: `null` and `""` are falsy. -/
def jsOr (v : Option String) (d : String) : String :=
  match v with
  | none => d
  | some s => if s = "" then d else s

/-! ## Button widget (`ImaraButton`, `imara-button.js`) -/

/-- The inner native `<button>` element: the fields `updateButton` writes. -/
structure NativeBtn where
  btnType : String
  btnDisabled : Bool
  ariaDisabled : String
  ariaBusy : String
  ariaLabel : String
  deriving Repr, DecidableEq

/-- The `button-click` custom event dispatched by `handleClick`, with its
`{variant, type}` detail payload. -/
structure BtnEvt where
  evtName : String
  bubbles : Bool
  composed : Bool
  detailVariant : String
  detailType : String
  deriving Repr, DecidableEq

/-- Result of running the button's click handler on a native click event:
the custom events dispatched and what was done to the native event. -/
structure BtnClickResult where
  events : List BtnEvt
  defaultPrevented : Bool
  propagationStopped : Bool
  deriving Repr, DecidableEq

/-- `ImaraButton` element state: host attributes and the inner button
(`null` until `render` has run). -/
structure BtnState where
  attrs : Attrs
  button : Option NativeBtn
  deriving Repr, DecidableEq

/-- `handleClick` (imara-button.js:27-43): if `disabled` or `loading` is
present, prevent default, stop propagation and return; otherwise dispatch
one `button-click` event with the `{variant, type}` detail. -/
def btnHandleClick (attrs : Attrs) : BtnClickResult :=
  if hasAttr attrs "disabled" || hasAttr attrs "loading" then
    { events := [], defaultPrevented := true, propagationStopped := true }
  else
    { events := [{ evtName := "button-click", bubbles := true, composed := true,
                   detailVariant := jsOr (getAttr attrs "variant") "primary",
                   detailType := jsOr (getAttr attrs "type") "button" }],
      defaultPrevented := false, propagationStopped := false }

/-- `updateButton` (imara-button.js:277-304): recompute the inner button's
type, disabled and aria attributes from the host attributes. -/
def btnUpdateButton (attrs : Attrs) (_b : NativeBtn) : NativeBtn :=
  let isDisabled := hasAttr attrs "disabled"
  let isLoading := hasAttr attrs "loading"
  let variant := jsOr (getAttr attrs "variant") "primary"
  { btnType := jsOr (getAttr attrs "type") "button"
    btnDisabled := isDisabled || isLoading
    ariaDisabled := if isDisabled || isLoading then "true" else "false"
    ariaBusy := if isLoading then "true" else "false"
    ariaLabel := variant ++ " button" ++ (if isLoading then ", loading" else "") }

/-- `attributeChangedCallback` (imara-button.js:63-69): only when the value
actually changed (`oldValue !== newValue`) is `updateButton` re-run. -/
def btnAttributeChangedCallback (st : BtnState) (oldV newV : Option String) : BtnState :=
  if oldV = newV then st
  else
    match st.button with
    | none => st
    | some b => { st with button := some (btnUpdateButton st.attrs b) }

/-- Public `click()` (imara-button.js:324-328): only when the inner button
exists and neither `disabled` nor `loading` is present does it click the
native button, whose click listener is `handleClick`; the emitted events
are returned. -/
def btnClickPublic (st : BtnState) : List BtnEvt :=
  match st.button with
  | none => []
  | some _ =>
    if !hasAttr st.attrs "disabled" && !hasAttr st.attrs "loading" then
      (btnHandleClick st.attrs).events
    else
      []

/-! ## JS platform helpers -/

/-- The whitespace set of JS `String.prototype.trim` (ECMA-262 TrimString:
WhiteSpace ∪ LineTerminator): tab, LF, VT, FF, CR, space, NBSP, the Ogham
space mark, the en-quad through hair-space range, LS, PS, NNBSP, MMSP,
the ideographic space and the BOM — i.e., every Unicode
`White_Space`/`Space_Separator` code point ECMAScript strips. -/
def jsSpace (c : Char) : Bool :=
  let n := c.toNat
  n == 0x9 || n == 0xA || n == 0xB || n == 0xC || n == 0xD ||
  n == 0x20 || n == 0xA0 || n == 0x1680 ||
  (decide (0x2000 ≤ n) && decide (n ≤ 0x200A)) ||
  n == 0x2028 || n == 0x2029 || n == 0x202F || n == 0x205F ||
  n == 0x3000 || n == 0xFEFF

/-- JS `String.prototype.trim`. -/
def jsTrim (s : String) : String :=
  let l := s.data.dropWhile jsSpace
  String.mk ((l.reverse.dropWhile jsSpace).reverse)

/-- Numeric value of a list of decimal digits. -/
def digitsVal (l : List Char) : Nat :=
  l.foldl (fun a c => a * 10 + (c.toNat - 48)) 0

/-- JS `parseInt(s, 10)`: trim whitespace, optional sign, then the longest
leading run of decimal digits; `none` models `NaN` (no digits). -/
def jsParseInt (s : String) : Option Int :=
  let t := (jsTrim s).data
  let withSign : Int × List Char :=
    match t with
    | '-' :: r => (-1, r)
    | '+' :: r => (1, r)
    | r => (1, r)
  let digits := withSign.2.takeWhile Char.isDigit
  if digits.isEmpty then none
  else some (withSign.1 * (digitsVal digits : Int))

/-- WebIDL `ToInt32`: wrap into 32-bit two's-complement range. -/
def jsToInt32 (k : Int) : Int :=
  (k + 2147483648) % 4294967296 - 2147483648

/-- Modelled from the spec: the platform reflection applied when a JS
number (here: a `parseInt` result, `none` = `NaN`) is assigned to
`textarea.rows`/`textarea.cols` — platform behaviour outside this
repository.  WebIDL first converts the number to `unsigned long`
(`NaN` → `0`, other values modulo 2^32); HTML then reflects `rows`/`cols`
as *unsigned long limited to only positive numbers with default*: the
setter throws an `IndexSizeError` on `0`, and a converted value above
2147483647 stores the attribute's default (2 for `rows`, 20 for `cols`)
instead of the value. -/
def jsReflectPositiveUL (defaultVal : Int) (parsed : Option Int) : Except Unit Int :=
  let n : Int :=
    match parsed with
    | none => 0
    | some k => k % 4294967296
  if n = 0 then Except.error ()
  else if n > 2147483647 then Except.ok defaultVal
  else Except.ok n

/-- Modelled from the spec: the platform reflection applied when a JS
number is assigned to `textarea.maxLength`/`minLength` — platform
behaviour outside this repository.  WebIDL converts to `long`
(`NaN` → `0`, other values via `ToInt32`); HTML reflects these as *long
limited to only non-negative numbers*: the setter throws an
`IndexSizeError` on a negative value. -/
def jsReflectNonNegLong (parsed : Option Int) : Except Unit Int :=
  let n : Int :=
    match parsed with
    | none => 0
    | some k => jsToInt32 k
  if n < 0 then Except.error () else Except.ok n

/-- JS `/^\d+$/.test s` (also false for `""`, matching the `value &&`
truthiness guards that accompany it in the source). -/
def jsDigitsOnly (s : String) : Bool :=
  !s.data.isEmpty && s.data.all Char.isDigit

/-- Modelled from the spec: §4.1 and §7 delegate pattern matching to the
host platform's regular-expression engine, which is not part of this
repository.  The model covers the fragment the proofs evaluate: per the
ECMAScript RegExp grammar, a pattern with an unterminated character class
(such as `"["`) raises a `SyntaxError` at construction — modelled as
`none` — and a pattern of literal characters matches a value exactly when
it occurs as a substring (unanchored `test`).  Escapes inside classes are
not modelled; no evaluated pattern uses them.  Theorems quantify over an
arbitrary engine and use this model only for concrete instances. -/
def jsRegexCompile (p : String) : Option (String → Bool) :=
  let unterminated := p.data.foldl
    (fun inClass c =>
      if inClass then (if c = ']' then false else true)
      else (if c = '[' then true else false)) false
  if unterminated then none
  else some (fun s => occursIn p.data s.data)
where
  /-- Does the first list start the second? -/
  leads : List Char → List Char → Bool
    | [], _ => true
    | _ :: _, [] => false
    | c :: ps, d :: ss => c = d && leads ps ss
  /-- Does the first list occur contiguously inside the second? -/
  occursIn (pat : List Char) : List Char → Bool
    | [] => leads pat []
    | d :: ss => leads pat (d :: ss) || occursIn pat ss

/-! ## Container widget (`ImaraContainer`, `imara-container.js`) -/

/-- One imperative DOM operation performed by the container's
synchronization pass: `setProperty`/`removeProperty` on the inner `div`'s
inline style, a direct style-field assignment, or `removeAttribute` on the
host element. -/
inductive DomOp where
  | setProp (n v : String)
  | removeProp (n : String)
  | styleSet (field v : String)
  | hostRemoveAttr (n : String)
  deriving Repr, DecidableEq

/-- `normalizeUnit` (imara-container.js:220-224): absent/empty → `auto`,
digit-only → append `px`, anything else verbatim. -/
def normalizeUnit (v : Option String) : String :=
  match v with
  | none => "auto"
  | some s => if s = "" then "auto" else if jsDigitsOnly s then s ++ "px" else s

/-- `PADDING_SCALE` (imara-container.js:234-240).  The source's
`PADDING_SCALE[value]` is a JS object lookup: the five own keys return the
scale entries modelled here.  Keys inherited from `Object.prototype`
(`"constructor"`, `"toString"`, …) would also find truthy values, whose
engine-dependent stringification then reaches `setProperty`; that
prototype-chain corner is outside the modelled fragment, and no theorem
evaluates such a key. -/
def paddingScale (s : String) : Option String :=
  if s = "xs" then some "0.25rem"
  else if s = "sm" then some "0.5rem"
  else if s = "md" then some "1rem"
  else if s = "lg" then some "1.5rem"
  else if s = "xl" then some "2rem"
  else none

/-- `resolvePadding` (imara-container.js:201-208). -/
def resolvePadding (v : Option String) : String :=
  match v with
  | none => "0"
  | some s =>
    if s = "" then "0"
    else match paddingScale s with
      | some r => r
      | none => normalizeUnit (some s)

/-- `mapAlign` (imara-container.js:151-162). -/
def mapAlign (v : Option String) : String :=
  match v with
  | some "start" => "flex-start"
  | some "end" => "flex-end"
  | some "center" => "center"
  | some "stretch" => "stretch"
  | some "baseline" => "baseline"
  | _ => "stretch"

/-- `mapJustify` (imara-container.js:163-175). -/
def mapJustify (v : Option String) : String :=
  match v with
  | some "start" => "flex-start"
  | some "end" => "flex-end"
  | some "center" => "center"
  | some "space-between" => "space-between"
  | some "space-around" => "space-around"
  | some "space-evenly" => "space-evenly"
  | _ => "flex-start"

/-- The grid template string computed by `applyGrid`
(imara-container.js:184-191) when the layout is `grid`. -/
def containerGridTemplate (attrs : Attrs) : String :=
  let columns := getAttr attrs "columns"
  let minWidth := normalizeUnit (some (jsOr (getAttr attrs "min-column-width") "250px"))
  match columns with
  | some c =>
    if jsDigitsOnly c then "repeat(" ++ c ++ ", 1fr)"
    else "repeat(auto-fit, minmax(" ++ minWidth ++ ", 1fr))"
  | none => "repeat(auto-fit, minmax(" ++ minWidth ++ ", 1fr))"

/-- `applyFlex` (imara-container.js:141-150). -/
def containerFlexOps (attrs : Attrs) : List DomOp :=
  if getAttr attrs "layout" ≠ some "flex" then []
  else
    [DomOp.styleSet "flexDirection" (jsOr (getAttr attrs "direction") "row"),
     DomOp.styleSet "alignItems" (mapAlign (getAttr attrs "align")),
     DomOp.styleSet "justifyContent" (mapJustify (getAttr attrs "justify"))]

/-- `applyGrid` (imara-container.js:179-192). -/
def containerGridOps (attrs : Attrs) : List DomOp :=
  if getAttr attrs "layout" ≠ some "grid" then [DomOp.removeProp "--grid-template-columns"]
  else [DomOp.setProp "--grid-template-columns" (containerGridTemplate attrs)]

/-- `setVar` (imara-container.js:225-232). -/
def setVarOps (n v : String) : List DomOp :=
  if v = "auto" then [DomOp.removeProp n] else [DomOp.setProp n v]

/-- `applySpacing` (imara-container.js:196-200). -/
def containerSpacingOps (attrs : Attrs) : List DomOp :=
  setVarOps "--gap" (normalizeUnit (getAttr attrs "gap")) ++
  setVarOps "--padding" (resolvePadding (getAttr attrs "padding")) ++
  setVarOps "--margin" (normalizeUnit (getAttr attrs "margin"))

/-- `applySizing` (imara-container.js:212-216). -/
def containerSizingOps (attrs : Attrs) : List DomOp :=
  setVarOps "--width" (normalizeUnit (getAttr attrs "width")) ++
  setVarOps "--height" (normalizeUnit (getAttr attrs "height")) ++
  setVarOps "--max-width" (normalizeUnit (getAttr attrs "max-width"))

/-- `applyLayout`'s validity test (imara-container.js:131-137). -/
def containerLayoutValid (l : Option String) : Bool :=
  l = some "block" || l = some "flex" || l = some "grid"

/-- The tail of `sync()` after `applyLayout`:
`applyFlex(); applyGrid(); applySpacing(); applySizing()`. -/
def containerSyncTail (attrs : Attrs) : List DomOp :=
  containerFlexOps attrs ++ containerGridOps attrs ++
  containerSpacingOps attrs ++ containerSizingOps attrs

/-- `sync()` (imara-container.js:119-127) on the element's attributes,
returning the updated host attributes and every DOM operation performed.
When `applyLayout` removes a *present* (invalid) `layout` attribute, the
host's `attributeChangedCallback` fires synchronously and re-runs `sync()`
before the outer pass continues; the inner pass sees no `layout` attribute
so `removeAttribute` fires no further callback and the recursion stops at
depth one. -/
def containerSync (attrs : Attrs) : Attrs × List DomOp :=
  let layout := getAttr attrs "layout"
  if containerLayoutValid layout then
    (attrs, containerSyncTail attrs)
  else
    match layout with
    | some _ =>
      let attrs1 := removeAttr attrs "layout"
      let nested := DomOp.hostRemoveAttr "layout" :: containerSyncTail attrs1
      (attrs1, DomOp.hostRemoveAttr "layout" :: (nested ++ containerSyncTail attrs1))
    | none =>
      (attrs, DomOp.hostRemoveAttr "layout" :: containerSyncTail attrs)

/-- `attributeChangedCallback` (imara-container.js:35-37): the source
declares it with no parameters and unconditionally re-runs `sync()`; the
name/old/new arguments the platform passes are ignored.  The inner
container `div` always exists (the constructor renders). -/
def containerAttributeChangedCallback (attrs : Attrs) (_n : String)
    (_oldV _newV : Option String) : Attrs × List DomOp :=
  containerSync attrs

/-! ## Single-line input widget (`ImaraInput`, `imara-input.js`) -/

/-- The inner native `<input>` element: the fields `updateInputState`
and the platform read and write. -/
structure NativeInput where
  value : String
  fieldType : String
  placeholder : String
  fieldName : String
  fieldDisabled : Bool
  readOnly : Bool
  fieldRequired : Bool
  ariaRequired : String
  ariaInvalid : String
  deriving Repr, DecidableEq

/-- The parts `render` creates: the inner input and the label's text node
(`inputElement`/`labelElement` are both null before `render` runs in
`connectedCallback`, and both non-null after). -/
structure InputRendered where
  inputEl : NativeInput
  labelText : String
  deriving Repr, DecidableEq

/-- An `input`/`change`/`focus`/`blur` custom event re-dispatched by the
widget, with its detail payload (`inputType` is only populated for the
`input` event). -/
structure InputEvt where
  evtName : String
  detailValue : String
  detailInputType : String
  deriving Repr, DecidableEq

/-- `ImaraInput` element state: host attributes, the rendered parts
(`none` until connected), and the value last passed to
`internals.setFormValue`. -/
structure InputState where
  attrs : Attrs
  rendered : Option InputRendered
  formValue : Option String
  deriving Repr, DecidableEq

/-- The freshly constructed element (imara-input.js:31-68): nothing
rendered yet. -/
def inputInitial (attrs : Attrs) : InputState :=
  { attrs := attrs, rendered := none, formValue := none }

/-- `updateInputState` (imara-input.js:178-219): a guarded no-op before
`render` has produced the inner elements; otherwise re-synchronize every
derived field of the inner input from the host attributes.  The
`internals.setValidity` calls depend on the platform's native validity
object and are not modelled; no claim concerns them. -/
def inputUpdateState (st : InputState) : InputState :=
  match st.rendered with
  | none => st
  | some r =>
    let v := jsOr (getAttr st.attrs "value") ""
    let nm := jsOr (getAttr st.attrs "name") ""
    let isDisabled := hasAttr st.attrs "disabled"
    let isReadonly := hasAttr st.attrs "readonly"
    let isRequired := hasAttr st.attrs "required"
    let hasError := hasAttr st.attrs "error"
    let inn := r.inputEl
    let inn := { inn with fieldType := jsOr (getAttr st.attrs "type") "text" }
    let inn := if inn.value ≠ v then { inn with value := v } else inn
    let inn := { inn with placeholder := jsOr (getAttr st.attrs "placeholder") "" }
    let inn := if nm ≠ "" then { inn with fieldName := nm } else inn
    let inn := { inn with
      fieldDisabled := isDisabled
      readOnly := isReadonly
      fieldRequired := isRequired
      ariaRequired := if isRequired then "true" else "false"
      ariaInvalid := if hasError then "true" else "false" }
    let attrs1 :=
      if isDisabled then setAttr st.attrs "aria-disabled" ""
      else removeAttr st.attrs "aria-disabled"
    { attrs := attrs1
      rendered := some { inputEl := inn, labelText := jsOr (getAttr st.attrs "label") "" }
      formValue := some v }

/-- `attributeChangedCallback` (imara-input.js:77-81): re-synchronize only
when the value actually changed. -/
def inputAttributeChangedCallback (st : InputState) (oldV newV : Option String) :
    InputState :=
  if oldV = newV then st else inputUpdateState st

/-- Host `setAttribute`: the platform mutates the attribute map and then
invokes `attributeChangedCallback` synchronously with the old and new
values (all of this widget's attributes are observed). -/
def inputSetAttribute (st : InputState) (n v : String) : InputState :=
  let oldV := getAttr st.attrs n
  let st1 : InputState := { st with attrs := setAttr st.attrs n v }
  inputAttributeChangedCallback st1 oldV (some v)

/-- `handleInput` (imara-input.js:37-47) on a native `input` event whose
target carries `targetValue`: reflect the value into the `value`
attribute, push it to `internals.setFormValue`, then dispatch one `input`
custom event with `{value, inputType}` detail — all before returning. -/
def inputHandleInput (st : InputState) (targetValue kind : String) :
    InputState × List InputEvt :=
  let st1 := inputSetAttribute st "value" targetValue
  let st2 : InputState := { st1 with formValue := some targetValue }
  (st2, [{ evtName := "input", detailValue := targetValue, detailInputType := kind }])

/-- One keystroke appending character `c`: the platform appends to the
native input's value, then fires `input`, which runs `handleInput` with
the new target value. -/
def inputKeystroke (st : InputState) (c : Char) : InputState × List InputEvt :=
  match st.rendered with
  | none => (st, [])
  | some r =>
    let tv := r.inputEl.value.push c
    let st1 : InputState :=
      { st with rendered := some { r with inputEl := { r.inputEl with value := tv } } }
    inputHandleInput st1 tv "insertText"

/-- Typing a list of characters keystroke-by-keystroke, collecting every
dispatched event in order. -/
def inputTypeChars (st : InputState) : List Char → InputState × List InputEvt
  | [] => (st, [])
  | c :: cs =>
    let r1 := inputKeystroke st c
    let r2 := inputTypeChars r1.1 cs
    (r2.1, r1.2 ++ r2.2)

/-- The `value` property getter (imara-input.js:236):
`this.inputElement?.value || ''`. -/
def inputValueGet (st : InputState) : String :=
  match st.rendered with
  | none => ""
  | some r => jsOr (some r.inputEl.value) ""

/-- The `value` property setter (imara-input.js:237):
`this.setAttribute('value', val)`. -/
def inputValueSet (st : InputState) (v : String) : InputState :=
  inputSetAttribute st "value" v

/-! ## Multi-line text widget (`ImaraTexteria`, `texteria.js`) -/

/-- Severity class carried by the character counter. -/
inductive Severity where
  | warning
  | error
  deriving Repr, DecidableEq

/-- The character counter's rendered text and severity class
(`updateCharCounter` removes both classes and then adds at most one). -/
structure CounterView where
  text : String
  severity : Option Severity
  deriving Repr, DecidableEq

/-- The derived validity state `updateValidation` computes: the flag and
the message placed in the validation region (empty when valid). -/
structure TexValidity where
  isValid : Bool
  message : String
  deriving Repr, DecidableEq

/-- A `texteria-*` custom event with its `{value, characterCount}` detail
(`getEventDetail`, texteria.js:423-428). -/
structure TexEvt where
  evtName : String
  detailValue : String
  detailCharacterCount : Nat
  deriving Repr, DecidableEq

/-- `ImaraTexteria` element state.  `internalValue` is `this._value`;
`taValue` is the inner `<textarea>`'s text; `taMinLength`/`taMaxLength`
are the inner element's IDL properties (`-1` when the content attribute is
absent, the platform default); `taRowsAssigned`/`taColsAssigned` hold the
value the last successful `rows`/`cols` reflection stored
(`jsReflectPositiveUL`; `none` = never assigned); `labelView` is the optional label
element with its text and `required` class; `counterShown` mirrors the
`show-counter` display toggle.  The auto-resize height is a pure layout
measurement (spec §1 places rendering outside scope) and is not
modelled. -/
structure TexState where
  attrs : Attrs
  internalValue : String
  taValue : String
  taPlaceholder : String
  taDisabled : Bool
  containerDisabledClass : Bool
  taRequired : Bool
  taMinLength : Int
  taMaxLength : Int
  taRowsAssigned : Option Int
  taColsAssigned : Option Int
  taName : String
  isUserTyping : Bool
  counter : CounterView
  counterShown : Bool
  labelView : Option (String × Bool)
  validity : TexValidity
  ariaLabel : String
  ariaRequired : Bool
  deriving Repr, DecidableEq

/-- `updateCharCounter` (texteria.js:432-450).  The source computes
`(currentLength / maxLength) * 100` in binary floating point and compares
it with `100` and `90`; the integer comparisons `100·len ≥ 100·max` and
`100·len ≥ 90·max` are the exact rational forms, which agree with the
double computation at every length/limit pair that fits a text area (the
quotient of two such integers rounds across neither threshold). -/
def texCounter (value : String) (maxLength : Int) : CounterView :=
  let len : Int := value.length
  if maxLength > 0 then
    { text := toString len ++ " / " ++ toString maxLength
      severity :=
        if len * 100 ≥ 100 * maxLength then some Severity.error
        else if len * 100 ≥ 90 * maxLength then some Severity.warning
        else none }
  else
    { text := toString len, severity := none }

/-- `updateValidation` (texteria.js:454-491), parameterized by the host
regular-expression engine `compile` (`none` = the `new RegExp(pattern)`
construction throws; the call site has no try/catch, so the exception
escapes — modelled as `Except.error ()`).  Rules in source order:
required on a trim-empty value, then minlength on a non-empty value, then
pattern on a non-empty value; a non-empty `validation-message` attribute
replaces every message. -/
def texUpdateValidation (compile : String → Option (String → Bool))
    (required : Bool) (minLength : Int) (pattern vmsg : Option String)
    (value : String) : Except Unit TexValidity :=
  if required ∧ jsTrim value = "" then
    Except.ok { isValid := false, message := jsOr vmsg "This field is required" }
  else if minLength > 0 ∧ 0 < value.length ∧ (value.length : Int) < minLength then
    Except.ok { isValid := false
                message := jsOr vmsg ("Minimum " ++ toString minLength ++ " characters required") }
  else
    match pattern with
    | some p =>
      if p ≠ "" ∧ 0 < value.length then
        match compile p with
        | none => Except.error ()
        | some test =>
          if test value = false then
            Except.ok { isValid := false, message := jsOr vmsg "Please match the required format" }
          else
            Except.ok { isValid := true, message := "" }
      else
        Except.ok { isValid := true, message := "" }
    | none => Except.ok { isValid := true, message := "" }

/-- Run `updateValidation` against the element state: the pattern and
validation-message come from `getAttribute`, the required/minlength flags
from the inner textarea's properties, the value from `this._value`. -/
def texRunValidation (compile : String → Option (String → Bool))
    (st : TexState) : Except Unit TexState :=
  match texUpdateValidation compile st.taRequired st.taMinLength
      (getAttr st.attrs "pattern") (getAttr st.attrs "validation-message")
      st.internalValue with
  | Except.error e => Except.error e
  | Except.ok vd => Except.ok { st with validity := vd }

/-- `updateLabel` (texteria.js:506-520). -/
def texUpdateLabel (st : TexState) (text : Option String) : TexState :=
  match text with
  | some t =>
    if t ≠ "" then { st with labelView := some (t, st.taRequired) }
    else { st with labelView := none }
  | none => { st with labelView := none }

/-- `updateAriaAttributes` (texteria.js:524-535). -/
def texUpdateAria (st : TexState) : TexState :=
  let lbl := getAttr st.attrs "label"
  let st1 :=
    match lbl with
    | some t => if t ≠ "" then { st with ariaLabel := t } else st
    | none => st
  { st1 with ariaRequired := st1.taRequired }

/-- The tail of `attributeChangedCallback`: after the per-attribute branch
(whose validation may have thrown), run `updateAriaAttributes`; an
exception skips the aria update and escapes. -/
def texAfterBranch (r : Except Unit TexState) : Except Unit TexState :=
  match r with
  | Except.error e => Except.error e
  | Except.ok st1 => Except.ok (texUpdateAria st1)

/-- The `rows` branch's computation (texteria.js:112-114):
`parseInt(newValue || '3', 10)`, `none` = `NaN`. -/
def texRowsParse (newV : Option String) : Option Int :=
  jsParseInt (jsOr newV "3")

/-- The `cols` branch's computation (texteria.js:115-117):
`parseInt(newValue || '50', 10)`. -/
def texColsParse (newV : Option String) : Option Int :=
  jsParseInt (jsOr newV "50")

/-- `attributeChangedCallback` (texteria.js:90-160): an early return when
`oldValue === newValue`; otherwise the per-attribute branch, then
`updateAriaAttributes` — unless the branch's `updateValidation` throws, in
which case nothing after it runs and the exception escapes.  The
`auto-resize` branch and the auto-resize calls inside the `value` branch
touch only the measured layout height, which is not modelled. -/
def texAttributeChangedCallback (compile : String → Option (String → Bool))
    (st : TexState) (n : String) (oldV newV : Option String) :
    Except Unit TexState :=
  if oldV = newV then Except.ok st
  else
    let branch : Except Unit TexState :=
      if n = "value" then
        if st.isUserTyping then Except.ok st
        else
          let v := newV.getD ""
          let st1 := { st with internalValue := v, taValue := v }
          let st2 := { st1 with counter := texCounter v st1.taMaxLength }
          texRunValidation compile st2
      else if n = "placeholder" then
        Except.ok { st with taPlaceholder := newV.getD "" }
      else if n = "disabled" then
        Except.ok { st with taDisabled := newV.isSome, containerDisabledClass := newV.isSome }
      else if n = "rows" then
        match jsReflectPositiveUL 2 (texRowsParse newV) with
        | Except.error e => Except.error e
        | Except.ok r => Except.ok { st with taRowsAssigned := some r }
      else if n = "cols" then
        match jsReflectPositiveUL 20 (texColsParse newV) with
        | Except.error e => Except.error e
        | Except.ok r => Except.ok { st with taColsAssigned := some r }
      else if n = "maxlength" then
        if (jsOr newV "") ≠ "" then
          match jsReflectNonNegLong (jsParseInt (newV.getD "")) with
          | Except.error e => Except.error e
          | Except.ok m =>
            Except.ok { st with taMaxLength := m, counter := texCounter st.internalValue m }
        else
          Except.ok { st with taMaxLength := -1, counter := texCounter st.internalValue (-1) }
      else if n = "minlength" then
        if (jsOr newV "") ≠ "" then
          match jsReflectNonNegLong (jsParseInt (newV.getD "")) with
          | Except.error e => Except.error e
          | Except.ok m => Except.ok { st with taMinLength := m }
        else
          Except.ok { st with taMinLength := -1 }
      else if n = "required" then
        texRunValidation compile { st with taRequired := newV.isSome }
      else if n = "pattern" then
        texRunValidation compile st
      else if n = "label" then
        Except.ok (texUpdateLabel st newV)
      else if n = "name" then
        Except.ok (if (jsOr newV "") ≠ "" then { st with taName := newV.getD "" } else st)
      else if n = "show-counter" then
        Except.ok { st with counterShown := newV.isSome }
      else
        Except.ok st
    texAfterBranch branch

/-- Host `setAttribute` on the textarea element: mutate the attribute map,
then run the synchronous `attributeChangedCallback` with old and new
values. -/
def texSetAttribute (compile : String → Option (String → Bool))
    (st : TexState) (n v : String) : Except Unit TexState :=
  let oldV := getAttr st.attrs n
  let st1 := { st with attrs := setAttr st.attrs n v }
  texAttributeChangedCallback compile st1 n oldV (some v)

/-- The last step of the `input` listener: after a successful validation
pass, dispatch the `texteria-input` event and lower the typing flag; an
exception skips both and escapes. -/
def texListenerFinish (r : Except Unit TexState) : Except Unit (TexState × List TexEvt) :=
  match r with
  | Except.error e => Except.error e
  | Except.ok st4 =>
    Except.ok ({ st4 with isUserTyping := false },
      [{ evtName := "texteria-input", detailValue := st4.internalValue,
         detailCharacterCount := st4.internalValue.length }])

/-- The part of the `input` listener after the attribute reflection:
update the counter, re-validate, then finish. -/
def texListenerTail (compile : String → Option (String → Bool))
    (r : Except Unit TexState) : Except Unit (TexState × List TexEvt) :=
  match r with
  | Except.error e => Except.error e
  | Except.ok st2 =>
    texListenerFinish (texRunValidation compile
      { st2 with counter := texCounter st2.internalValue st2.taMaxLength })

/-- The `input` listener bound in `bindEvents` (texteria.js:375-391), run
when the user's keystroke has set the native textarea text to `tv`: raise
`isUserTyping`, copy the text into `_value`, reflect it into the `value`
attribute (the re-entrant callback is gated by the flag), update counter
and validation, dispatch one `texteria-input` event, then lower the
flag. -/
def texInputListener (compile : String → Option (String → Bool))
    (st : TexState) (tv : String) : Except Unit (TexState × List TexEvt) :=
  let st1 := { st with isUserTyping := true, internalValue := tv }
  texListenerTail compile (texSetAttribute compile st1 "value" tv)

/-- One keystroke appending `c`: the platform appends to the native
textarea's text and fires `input`, running the listener. -/
def texKeystroke (compile : String → Option (String → Bool))
    (st : TexState) (c : Char) : Except Unit (TexState × List TexEvt) :=
  let tv := st.taValue.push c
  texInputListener compile { st with taValue := tv } tv

/-- Typing a list of characters keystroke-by-keystroke. -/
def texTypeChars (compile : String → Option (String → Bool))
    (st : TexState) : List Char → Except Unit (TexState × List TexEvt)
  | [] => Except.ok (st, [])
  | c :: cs =>
    match texKeystroke compile st c with
    | Except.error e => Except.error e
    | Except.ok r1 =>
      match texTypeChars compile r1.1 cs with
      | Except.error e => Except.error e
      | Except.ok r2 => Except.ok (r2.1, r1.2 ++ r2.2)

/-- The part of `setValue` after the attribute reflection: recompute the
counter and re-validate (an exception escapes unchanged). -/
def texSetValueTail (compile : String → Option (String → Bool))
    (r : Except Unit TexState) : Except Unit TexState :=
  match r with
  | Except.error e => Except.error e
  | Except.ok st2 =>
    texRunValidation compile
      { st2 with counter := texCounter st2.internalValue st2.taMaxLength }

/-- Public `setValue` (texteria.js:548-557): assign `_value` and the
native text, reflect into the `value` attribute (running the synchronous
callback), then recompute counter and validation.  No disabled guard
appears anywhere on this path. -/
def texSetValue (compile : String → Option (String → Bool))
    (st : TexState) (v : String) : Except Unit TexState :=
  let st1 := { st with internalValue := v, taValue := v }
  texSetValueTail compile (texSetAttribute compile st1 "value" v)

/-- Public `clear` (texteria.js:561-563): `setValue('')`. -/
def texClear (compile : String → Option (String → Bool))
    (st : TexState) : Except Unit TexState :=
  texSetValue compile st ""

/-- The event sequence the input widget's `handleInput` dispatches while a
character list is typed on top of the value `v0`. -/
def inputEventsSpec (v0 : String) : List Char → List InputEvt
  | [] => []
  | c :: cs =>
    { evtName := "input", detailValue := v0.push c, detailInputType := "insertText" } ::
      inputEventsSpec (v0.push c) cs

/-- The event sequence the textarea's input listener dispatches while a
character list is typed on top of the value `v0`. -/
def texEventsSpec (v0 : String) : List Char → List TexEvt
  | [] => []
  | c :: cs =>
    { evtName := "texteria-input", detailValue := v0.push c,
      detailCharacterCount := (v0.push c).length } ::
      texEventsSpec (v0.push c) cs


/-- The native value visible through a state's rendered parts, if any. -/
def renderedValue (st : InputState) : Option String :=
  st.rendered.map fun r => r.inputEl.value


/-- The state of a successful textarea run, if any. -/
def okState (r : Except Unit (TexState × List TexEvt)) : Option TexState :=
  match r with
  | Except.ok p => some p.1
  | Except.error _ => none

/-- The events of a successful textarea run, if any. -/
def okEvents (r : Except Unit (TexState × List TexEvt)) : Option (List TexEvt) :=
  match r with
  | Except.ok p => some p.2
  | Except.error _ => none

/-- The pattern value `pat` (a `getAttribute` result) is accepted by the
host regular-expression engine: either no pattern is set, or its
compilation succeeds. -/
def patternOk (compile : String → Option (String → Bool))
    (pat : Option String) : Prop :=
  ∀ p, pat = some p → (compile p).isSome = true


/-- A freshly created native `<button>` (platform defaults; `updateButton`
overwrites every modelled field before the element is used). -/
def btnFreshNative : NativeBtn :=
  { btnType := "submit", btnDisabled := false, ariaDisabled := "", ariaBusy := "",
    ariaLabel := "" }

/-- A connected button element: `connectedCallback` runs `render`, which
creates the inner button and calls `updateButton`, and attaches the click
listener (imara-button.js:50-53, 73-93).  The `await`-deferral inside
`render` is flattened to synchronous completion; event-loop microtask
ordering is outside this embedding. -/
def btnRendered (attrs : Attrs) : BtnState :=
  { attrs := attrs, button := some (btnUpdateButton attrs btnFreshNative) }

/-- A freshly created native `<input>` (platform defaults). -/
def inputFreshNative : NativeInput :=
  { value := "", fieldType := "text", placeholder := "", fieldName := "",
    fieldDisabled := false, readOnly := false, fieldRequired := false,
    ariaRequired := "", ariaInvalid := "" }

/-- `render` (imara-input.js:82-97): build the shadow fragment and take the
`inputElement`/`labelElement` references. -/
def inputRender (st : InputState) : InputState :=
  { st with rendered := some { inputEl := inputFreshNative, labelText := "" } }

/-- `connectedCallback` (imara-input.js:69-73): `render`, attach listeners,
then one full `updateInputState` pass. -/
def inputConnectedCallback (st : InputState) : InputState :=
  inputUpdateState (inputRender st)

/-- The freshly constructed textarea element (texteria.js:42-73): empty
value, typing flag down, fresh inner textarea (IDL `minLength`/`maxLength`
are `-1` while the content attributes are absent), no label, counter and
validation regions empty, the constructor's default aria label. -/
def texInitial (attrs : Attrs) : TexState :=
  { attrs := attrs
    internalValue := ""
    taValue := ""
    taPlaceholder := ""
    taDisabled := false
    containerDisabledClass := false
    taRequired := false
    taMinLength := -1
    taMaxLength := -1
    taRowsAssigned := none
    taColsAssigned := none
    taName := ""
    isUserTyping := false
    counter := { text := "", severity := none }
    counterShown := true
    labelView := none
    validity := { isValid := true, message := "" }
    ariaLabel := "Text input area"
    ariaRequired := false }

/-! ## Generic lemmas -/

theorem getAttr_setAttr_self (a : Attrs) (n v : String) :
    getAttr (setAttr a n v) n = some v := by
  induction a with
  | nil => simp [getAttr, setAttr]
  | cons p rest ih =>
    by_cases h : p.1 = n
    · simp [setAttr, getAttr, h]
    · simp [setAttr, getAttr, h, ih]

theorem getAttr_setAttr_ne (a : Attrs) (n m v : String) (h : n ≠ m) :
    getAttr (setAttr a n v) m = getAttr a m := by
  induction a with
  | nil => simp [getAttr, setAttr, h]
  | cons p rest ih =>
    by_cases hp : p.1 = n
    · simp [setAttr, getAttr, hp, h]
    · simp only [setAttr, hp, if_neg hp, getAttr]
      by_cases hm : p.1 = m
      · simp [hm]
      · simp [hm, ih]

theorem getAttr_removeAttr_ne (a : Attrs) (n m : String) (h : n ≠ m) :
    getAttr (removeAttr a n) m = getAttr a m := by
  induction a with
  | nil => simp [removeAttr, getAttr]
  | cons p rest ih =>
    obtain ⟨k, w⟩ := p
    by_cases hp : k = n
    · have hm : k ≠ m := by rw [hp]; exact h
      simp [removeAttr, getAttr, hp, hm, ih, h]
    · by_cases hm : k = m
      · have hmn : m ≠ n := fun e => hp (hm.trans e)
        simp [removeAttr, getAttr, hp, hm, hmn]
      · simp [removeAttr, getAttr, hp, hm, ih]



theorem push_data (s : String) (c : Char) : (s.push c).data = s.data ++ [c] := rfl

theorem push_eq_mk (s : String) (c : Char) : s.push c = String.mk (s.data ++ [c]) := rfl

theorem length_mk (l : List Char) : (String.mk l).length = l.length := rfl

theorem mk_data (s : String) : String.mk s.data = s := rfl

theorem length_eq_data (s : String) : s.length = s.data.length := rfl

theorem push_ne_empty (s : String) (c : Char) : s.push c ≠ "" := by
  intro h
  have : (s.push c).data = ("" : String).data := by rw [h]
  simp [push_data] at this

theorem push_ne_self (s : String) (c : Char) : s.push c ≠ s := by
  intro h
  have : (s.push c).data.length = s.data.length := by rw [h]
  simp [push_data] at this

theorem jsOr_some_empty (s : String) : jsOr (some s) "" = s := by
  by_cases h : s = "" <;> simp [jsOr, h]

theorem inputEventsSpec_length (v0 : String) (cs : List Char) :
    (inputEventsSpec v0 cs).length = cs.length := by
  induction cs generalizing v0 with
  | nil => rfl
  | cons c cs ih => simp [inputEventsSpec, ih]

theorem texEventsSpec_length (v0 : String) (cs : List Char) :
    (texEventsSpec v0 cs).length = cs.length := by
  induction cs generalizing v0 with
  | nil => rfl
  | cons c cs ih => simp [texEventsSpec, ih]

theorem inputEventsSpec_get (v0 : String) (cs : List Char) (i : Nat) (h : i < cs.length) :
    (inputEventsSpec v0 cs).get? i =
      some { evtName := "input", detailValue := String.mk (v0.data ++ cs.take (i + 1)),
             detailInputType := "insertText" } := by
  induction cs generalizing v0 i with
  | nil => simp at h
  | cons c cs ih =>
    cases i with
    | zero =>
      simp [inputEventsSpec, List.get?, push_eq_mk]
    | succ i =>
      have hi : i < cs.length := Nat.lt_of_succ_lt_succ h
      simp only [inputEventsSpec, List.get?, List.take]
      rw [ih (v0.push c) i hi]
      simp [push_eq_mk]

theorem texEventsSpec_get (v0 : String) (cs : List Char) (i : Nat) (h : i < cs.length) :
    (texEventsSpec v0 cs).get? i =
      some { evtName := "texteria-input",
             detailValue := String.mk (v0.data ++ cs.take (i + 1)),
             detailCharacterCount := (v0.data ++ cs.take (i + 1)).length } := by
  induction cs generalizing v0 i with
  | nil => simp at h
  | cons c cs ih =>
    cases i with
    | zero =>
      simp [texEventsSpec, List.get?, push_eq_mk, length_mk]
    | succ i =>
      have hi : i < cs.length := Nat.lt_of_succ_lt_succ h
      simp only [texEventsSpec, List.get?, List.take]
      rw [ih (v0.push c) i hi]
      simp [push_eq_mk]

theorem getAttr_ariaToggle_value (a : Attrs) (b : Bool) :
    getAttr (if b then setAttr a "aria-disabled" "" else removeAttr a "aria-disabled")
      "value" = getAttr a "value" := by
  cases b with
  | true =>
    simpa using getAttr_setAttr_ne a "aria-disabled" "value" "" (by decide)
  | false =>
    simpa using getAttr_removeAttr_ne a "aria-disabled" "value" (by decide)

/-- What one keystroke does to a connected input widget whose `value`
attribute mirrors the native value: native value and attribute advance by
the typed character and exactly one `input` event is dispatched. -/
theorem inputKeystroke_spec (st : InputState) (r : InputRendered) (c : Char)
    (hr : st.rendered = some r)
    (ha : getAttr st.attrs "value" = some r.inputEl.value) :
    renderedValue (inputKeystroke st c).1 = some (r.inputEl.value.push c) ∧
      getAttr (inputKeystroke st c).1.attrs "value" = some (r.inputEl.value.push c) ∧
      (inputKeystroke st c).2 =
        [{ evtName := "input", detailValue := r.inputEl.value.push c,
           detailInputType := "insertText" }] := by
  have hne : getAttr st.attrs "value" ≠ some (r.inputEl.value.push c) := by
    rw [ha]
    intro h
    exact push_ne_self r.inputEl.value c (Option.some.inj h).symm
  have hget : ∀ a : Attrs,
      getAttr (setAttr a "value" (r.inputEl.value.push c)) "value" =
        some (r.inputEl.value.push c) :=
    fun a => getAttr_setAttr_self a "value" (r.inputEl.value.push c)
  simp only [inputKeystroke, hr, inputHandleInput, inputSetAttribute,
    inputAttributeChangedCallback]
  rw [if_neg (by simpa using hne)]
  simp only [inputUpdateState, hget, jsOr_some_empty, ne_eq, not_true_eq_false, if_false,
    renderedValue, Option.map]
  refine ⟨?_, ?_, ?_⟩
  · split <;> rfl
  · rw [getAttr_ariaToggle_value, hget]
  · trivial

/-- Folding `inputKeystroke_spec` over a whole character list. -/
theorem inputTypeChars_spec (cs : List Char) :
    ∀ (st : InputState) (r : InputRendered), st.rendered = some r →
    getAttr st.attrs "value" = some r.inputEl.value →
    renderedValue (inputTypeChars st cs).1 = some (String.mk (r.inputEl.value.data ++ cs)) ∧
      getAttr (inputTypeChars st cs).1.attrs "value" =
        some (String.mk (r.inputEl.value.data ++ cs)) ∧
      (inputTypeChars st cs).2 = inputEventsSpec r.inputEl.value cs := by
  induction cs with
  | nil =>
    intro st r hr ha
    refine ⟨?_, by simpa [mk_data] using ha, rfl⟩
    simp [inputTypeChars, renderedValue, hr, mk_data]
  | cons c cs ih =>
    intro st r hr ha
    obtain ⟨hv1, ha1, he1⟩ := inputKeystroke_spec st r c hr ha
    rcases hrend : (inputKeystroke st c).1.rendered with _ | r1
    · rw [renderedValue, hrend] at hv1
      simp at hv1
    · rw [renderedValue, hrend] at hv1
      have hv1' : r1.inputEl.value = r.inputEl.value.push c := by
        simpa using hv1
      have ha1' : getAttr (inputKeystroke st c).1.attrs "value" = some r1.inputEl.value := by
        rw [ha1, hv1']
      obtain ⟨hv2, ha2, he2⟩ := ih (inputKeystroke st c).1 r1 hrend ha1'
      refine ⟨?_, ?_, ?_⟩
      · simpa [inputTypeChars, hv1', push_eq_mk] using hv2
      · simpa [inputTypeChars, hv1', push_eq_mk] using ha2
      · simp [inputTypeChars, he1, he2, hv1', inputEventsSpec]

@[simp]
theorem texUpdateAria_attrs (st : TexState) : (texUpdateAria st).attrs = st.attrs := by
  rcases h : getAttr st.attrs "label" with _ | t <;> simp [texUpdateAria, h]
  split <;> rfl

@[simp]
theorem texUpdateAria_internalValue (st : TexState) :
    (texUpdateAria st).internalValue = st.internalValue := by
  rcases h : getAttr st.attrs "label" with _ | t <;> simp [texUpdateAria, h]
  split <;> rfl

@[simp]
theorem texUpdateAria_taValue (st : TexState) : (texUpdateAria st).taValue = st.taValue := by
  rcases h : getAttr st.attrs "label" with _ | t <;> simp [texUpdateAria, h]
  split <;> rfl

@[simp]
theorem texUpdateAria_taMaxLength (st : TexState) :
    (texUpdateAria st).taMaxLength = st.taMaxLength := by
  rcases h : getAttr st.attrs "label" with _ | t <;> simp [texUpdateAria, h]
  split <;> rfl

@[simp]
theorem texUpdateAria_isUserTyping (st : TexState) :
    (texUpdateAria st).isUserTyping = st.isUserTyping := by
  rcases h : getAttr st.attrs "label" with _ | t <;> simp [texUpdateAria, h]
  split <;> rfl

@[simp]
theorem texUpdateAria_taDisabled (st : TexState) :
    (texUpdateAria st).taDisabled = st.taDisabled := by
  rcases h : getAttr st.attrs "label" with _ | t <;> simp [texUpdateAria, h]
  split <;> rfl

@[simp]
theorem texUpdateAria_taRowsAssigned (st : TexState) :
    (texUpdateAria st).taRowsAssigned = st.taRowsAssigned := by
  rcases h : getAttr st.attrs "label" with _ | t <;> simp [texUpdateAria, h]
  split <;> rfl

@[simp]
theorem texAfterBranch_ok (st1 : TexState) :
    texAfterBranch (Except.ok st1) = Except.ok (texUpdateAria st1) := rfl

@[simp]
theorem texAfterBranch_error (e : Unit) :
    texAfterBranch (Except.error e) = Except.error e := rfl

@[simp]
theorem texListenerFinish_ok (st4 : TexState) :
    texListenerFinish (Except.ok st4) =
      Except.ok ({ st4 with isUserTyping := false },
        [{ evtName := "texteria-input", detailValue := st4.internalValue,
           detailCharacterCount := st4.internalValue.length }]) := rfl

@[simp]
theorem texListenerTail_ok (compile : String → Option (String → Bool)) (st2 : TexState) :
    texListenerTail compile (Except.ok st2) =
      texListenerFinish (texRunValidation compile
        { st2 with counter := texCounter st2.internalValue st2.taMaxLength }) := rfl

@[simp]
theorem texSetValueTail_ok (compile : String → Option (String → Bool)) (st2 : TexState) :
    texSetValueTail compile (Except.ok st2) =
      texRunValidation compile
        { st2 with counter := texCounter st2.internalValue st2.taMaxLength } := rfl

/-- With no pattern attribute, `updateValidation` cannot reach the
`new RegExp` construction, so it always returns a validity state. -/
theorem texUpdateValidation_pattern_none (compile : String → Option (String → Bool))
    (required : Bool) (minLength : Int) (vmsg : Option String) (value : String) :
    ∃ vd, texUpdateValidation compile required minLength none vmsg value = Except.ok vd := by
  unfold texUpdateValidation
  split_ifs <;> exact ⟨_, rfl⟩

/-- State-level corollary of `texUpdateValidation_pattern_none`. -/
theorem texRunValidation_pattern_none (compile : String → Option (String → Bool))
    (st : TexState) (hp : getAttr st.attrs "pattern" = none) :
    ∃ vd, texRunValidation compile st = Except.ok { st with validity := vd } := by
  obtain ⟨vd, hvd⟩ := texUpdateValidation_pattern_none compile st.taRequired st.taMinLength
    (getAttr st.attrs "validation-message") st.internalValue
  refine ⟨vd, ?_⟩
  rw [texRunValidation, hp, hvd]

/-- An unset pattern is accepted by every engine. -/
theorem patternOk_of_eq_none (compile : String → Option (String → Bool))
    (pat : Option String) (h : pat = none) : patternOk compile pat :=
  fun _ hq => Option.noConfusion (h ▸ hq)

/-- With every set pattern accepted by the engine, `updateValidation`
cannot reach a failing `new RegExp` construction, so it always returns a
validity state. -/
theorem texUpdateValidation_ok (compile : String → Option (String → Bool))
    (required : Bool) (minLength : Int) (pattern vmsg : Option String)
    (value : String) (h : patternOk compile pattern) :
    ∃ vd, texUpdateValidation compile required minLength pattern vmsg value =
      Except.ok vd := by
  rcases pattern with _ | p
  · exact texUpdateValidation_pattern_none compile required minLength vmsg value
  · have hc : (compile p).isSome = true := h p rfl
    rcases hcm : compile p with _ | m
    · rw [hcm] at hc
      exact absurd hc (by simp)
    · simp only [texUpdateValidation]
      split_ifs with h1 h2 h3
      · exact ⟨_, rfl⟩
      · exact ⟨_, rfl⟩
      · simp only [hcm]
        split
        · exact ⟨_, rfl⟩
        · exact ⟨_, rfl⟩
      · exact ⟨_, rfl⟩

/-- State-level corollary of `texUpdateValidation_ok`. -/
theorem texRunValidation_ok (compile : String → Option (String → Bool))
    (st : TexState) (hp : patternOk compile (getAttr st.attrs "pattern")) :
    ∃ vd, texRunValidation compile st = Except.ok { st with validity := vd } := by
  obtain ⟨vd, hvd⟩ := texUpdateValidation_ok compile st.taRequired st.taMinLength
    (getAttr st.attrs "pattern") (getAttr st.attrs "validation-message")
    st.internalValue hp
  refine ⟨vd, ?_⟩
  rw [texRunValidation, hvd]

/-- Running the aria tail after an engine-accepted validation pass
preserves the value fields, the attribute map and the maxlength. -/
theorem texAfterBranch_validation (compile : String → Option (String → Bool))
    (stIn : TexState) (hp : patternOk compile (getAttr stIn.attrs "pattern")) :
    ∃ st', texAfterBranch (texRunValidation compile stIn) = Except.ok st' ∧
      st'.internalValue = stIn.internalValue ∧ st'.taValue = stIn.taValue ∧
      st'.attrs = stIn.attrs ∧ st'.taMaxLength = stIn.taMaxLength := by
  obtain ⟨vd, hvd⟩ := texRunValidation_ok compile stIn hp
  rw [hvd, texAfterBranch_ok]
  exact ⟨texUpdateAria { stIn with validity := vd }, rfl, by simp, by simp, by simp, by simp⟩

theorem texValueCallback_fields (compile : String → Option (String → Bool))
    (st : TexState) (oldV : Option String) (v : String)
    (hi : st.internalValue = v) (ht : st.taValue = v)
    (hp : patternOk compile (getAttr st.attrs "pattern")) :
    ∃ st', texAttributeChangedCallback compile st "value" oldV (some v) = Except.ok st' ∧
      st'.internalValue = v ∧ st'.taValue = v ∧ st'.attrs = st.attrs ∧
      st'.taMaxLength = st.taMaxLength := by
  by_cases he : oldV = some v
  · simp only [texAttributeChangedCallback, if_pos he]
    exact ⟨st, rfl, hi, ht, rfl, rfl⟩
  · simp only [texAttributeChangedCallback, if_neg he, if_true]
    by_cases hu : st.isUserTyping = true
    · rw [if_pos hu]
      exact ⟨texUpdateAria st, rfl, by simp [hi], by simp [ht], by simp, by simp⟩
    · rw [if_neg hu]
      simp only [Option.getD_some]
      obtain ⟨st', h1, h2, h3, h4, h5⟩ := texAfterBranch_validation compile
        { st with internalValue := v, taValue := v,
                  counter := texCounter v st.taMaxLength }
        (by simpa using hp)
      exact ⟨st', h1, h2, h3, h4, h5⟩

/-- Reflecting `tv` into the `value` attribute of a state whose internal
value and native text already hold `tv` lands the attribute and keeps the
value fields, with no exception (every set pattern compiles). -/
theorem texSetAttributeValue_fields (compile : String → Option (String → Bool))
    (st0 : TexState) (tv : String)
    (hi : st0.internalValue = tv) (ht : st0.taValue = tv)
    (hp : patternOk compile (getAttr st0.attrs "pattern")) :
    ∃ st', texSetAttribute compile st0 "value" tv = Except.ok st' ∧
      st'.internalValue = tv ∧ st'.taValue = tv ∧
      st'.attrs = setAttr st0.attrs "value" tv ∧ st'.taMaxLength = st0.taMaxLength := by
  have hp2 : patternOk compile (getAttr (setAttr st0.attrs "value" tv) "pattern") := by
    rw [getAttr_setAttr_ne st0.attrs "value" "pattern" tv (by decide)]
    exact hp
  obtain ⟨st', h1, h2, h3, h4, h5⟩ := texValueCallback_fields compile
    { st0 with attrs := setAttr st0.attrs "value" tv }
    (getAttr st0.attrs "value") tv (by simpa using hi) (by simpa using ht)
    (by simpa using hp2)
  exact ⟨st', h1, h2, h3, by simpa using h4, by simpa using h5⟩

/-- The textarea's `input` listener on a state whose native text already
holds the typed text `tv` (and with every set pattern accepted by the
engine): it completes, copies `tv` into `_value`, reflects it into the
`value` attribute, and dispatches exactly one `texteria-input` event
carrying `tv`. -/
theorem texInputListener_spec (compile : String → Option (String → Bool))
    (st0 : TexState) (tv : String)
    (ht : st0.taValue = tv) (hp : patternOk compile (getAttr st0.attrs "pattern")) :
    ((okState (texInputListener compile st0 tv)).map fun s => s.taValue) = some tv ∧
      ((okState (texInputListener compile st0 tv)).map fun s => s.internalValue) =
        some tv ∧
      ((okState (texInputListener compile st0 tv)).map fun s =>
        getAttr s.attrs "value") = some (some tv) ∧
      ((okState (texInputListener compile st0 tv)).map fun s =>
        getAttr s.attrs "pattern") = some (getAttr st0.attrs "pattern") ∧
      okEvents (texInputListener compile st0 tv) =
        some [{ evtName := "texteria-input", detailValue := tv,
                detailCharacterCount := tv.length }] := by
  obtain ⟨stX, h1, h2, h3, h4, h5⟩ := texSetAttributeValue_fields compile
    { st0 with isUserTyping := true, internalValue := tv } tv rfl
    (by simpa using ht) (by simpa using hp)
  have hXp : getAttr stX.attrs "pattern" = getAttr st0.attrs "pattern" := by
    rw [h4, getAttr_setAttr_ne _ "value" "pattern" tv (by decide)]
  have hXv : getAttr stX.attrs "value" = some tv := by
    rw [h4]
    exact getAttr_setAttr_self _ "value" tv
  obtain ⟨vd, hvd⟩ := texRunValidation_ok compile
    { stX with counter := texCounter stX.internalValue stX.taMaxLength }
    (by show patternOk compile (getAttr stX.attrs "pattern")
        rw [hXp]
        exact hp)
  simp only [texInputListener]
  rw [h1, texListenerTail_ok, hvd, texListenerFinish_ok]
  simp [okState, okEvents, h2, h3, hXv, hXp]

/-- What one keystroke does to a textarea whose `value` attribute mirrors
the native text and whose every set pattern the engine accepts: the
listener completes without an exception, text, internal value and
attribute advance by the typed character, and exactly one `texteria-input`
event is dispatched. -/
theorem texKeystroke_spec (compile : String → Option (String → Bool))
    (st : TexState) (c : Char)
    (_hv : getAttr st.attrs "value" = some st.taValue)
    (hp : patternOk compile (getAttr st.attrs "pattern")) :
    ((okState (texKeystroke compile st c)).map fun s => s.taValue) =
        some (st.taValue.push c) ∧
      ((okState (texKeystroke compile st c)).map fun s => s.internalValue) =
        some (st.taValue.push c) ∧
      ((okState (texKeystroke compile st c)).map fun s => getAttr s.attrs "value") =
        some (some (st.taValue.push c)) ∧
      ((okState (texKeystroke compile st c)).map fun s => getAttr s.attrs "pattern") =
        some (getAttr st.attrs "pattern") ∧
      okEvents (texKeystroke compile st c) =
        some [{ evtName := "texteria-input", detailValue := st.taValue.push c,
                detailCharacterCount := (st.taValue.push c).length }] := by
  exact texInputListener_spec compile { st with taValue := st.taValue.push c }
    (st.taValue.push c) rfl (by simpa using hp)

/-- Folding `texKeystroke_spec` over a whole character list. -/
theorem texTypeChars_spec (compile : String → Option (String → Bool)) (cs : List Char) :
    ∀ st : TexState, getAttr st.attrs "value" = some st.taValue →
    patternOk compile (getAttr st.attrs "pattern") →
    ((okState (texTypeChars compile st cs)).map fun s => s.taValue) =
        some (String.mk (st.taValue.data ++ cs)) ∧
      ((okState (texTypeChars compile st cs)).map fun s =>
          getAttr s.attrs "value") = some (some (String.mk (st.taValue.data ++ cs))) ∧
      okEvents (texTypeChars compile st cs) = some (texEventsSpec st.taValue cs) ∧
      (cs ≠ [] → ((okState (texTypeChars compile st cs)).map fun s => s.internalValue) =
        some (String.mk (st.taValue.data ++ cs))) := by
  induction cs with
  | nil =>
    intro st ha _
    refine ⟨?_, ?_, rfl, fun h => absurd rfl h⟩
    · simp [texTypeChars, okState, mk_data]
    · simp [texTypeChars, okState, mk_data, ha]
  | cons c cs ih =>
    intro st ha hp
    obtain ⟨hv1, hi1, ha1, hp1, he1⟩ := texKeystroke_spec compile st c ha hp
    rcases hk : texKeystroke compile st c with e | p
    · rw [hk] at hv1
      simp [okState] at hv1
    · rw [hk] at hv1 hi1 ha1 hp1 he1
      simp only [okState, okEvents, Option.map] at hv1 hi1 ha1 hp1 he1
      have hv1' : p.1.taValue = st.taValue.push c := by simpa using hv1
      have ha1' : getAttr p.1.attrs "value" = some p.1.taValue := by
        rw [hv1']
        simpa using ha1
      have hp1' : getAttr p.1.attrs "pattern" = getAttr st.attrs "pattern" := by
        simpa using hp1
      obtain ⟨hv2, ha2, he2, hi2⟩ := ih p.1 ha1' (by rw [hp1']; exact hp)
      have hdata : p.1.taValue.data = st.taValue.data ++ [c] := by
        rw [hv1', push_data]
      rcases hrest : texTypeChars compile p.1 cs with e2 | p2
      · rw [hrest] at hv2
        simp [okState] at hv2
      · rw [hrest] at hv2 ha2 he2 hi2
        simp only [okState, okEvents, Option.map] at hv2 ha2 he2 hi2
        have hfin : texTypeChars compile st (c :: cs) = Except.ok (p2.1, p.2 ++ p2.2) := by
          simp [texTypeChars, hk, hrest]
        refine ⟨?_, ?_, ?_, fun _ => ?_⟩
        · rw [hfin]
          simpa [okState, hdata] using hv2
        · rw [hfin]
          simpa [okState, hdata] using ha2
        · rw [hfin]
          have hev1 : p.2 =
              [TexEvt.mk "texteria-input" (st.taValue.push c) (st.taValue.push c).length] := by
            simpa using he1
          have hev2 : p2.2 = texEventsSpec p.1.taValue cs := by
            simpa using he2
          simp [okEvents, hev1, hev2, hv1', texEventsSpec, hdata]
        · rw [hfin]
          rcases cs with _ | ⟨d, ds⟩
          · have hp2 : p2.1 = p.1 := by
              rw [texTypeChars] at hrest
              exact (congrArg Prod.fst (Except.ok.inj hrest)).symm
            simp only [okState, Option.map, hp2]
            rw [hi1]
            simp [hdata, push_eq_mk]
          · have := hi2 (by simp)
            simpa [okState, hdata] using this

/-! ## Claims -/

/-- **C6**: while `isUserTyping` is raised — i.e. during the synchronous
handling of a user input event in which the new text is reflected into the
`value` attribute — a `value`-attribute change callback leaves the
internal value (`_value`) and the rendered textarea text unchanged, so the
attribute-mutation handler never re-enters the internal-value assignment
the keystroke just caused. -/
theorem c6_typing_guard (compile : String → Option (String → Bool))
    (st : TexState) (oldV newV : Option String) (h : st.isUserTyping = true) :
    ∃ st', texAttributeChangedCallback compile st "value" oldV newV = Except.ok st' ∧
      st'.internalValue = st.internalValue ∧ st'.taValue = st.taValue := by
  by_cases he : oldV = newV
  · simp only [texAttributeChangedCallback, if_pos he]
    exact ⟨st, rfl, rfl, rfl⟩
  · simp only [texAttributeChangedCallback, if_neg he, h, if_true]
    exact ⟨texUpdateAria st, rfl, texUpdateAria_internalValue st, texUpdateAria_taValue st⟩

/-- Witness for `c6_typing_guard` at a concrete typing-flagged state. -/
theorem c6_typing_guard_witness :
    ∃ st', texAttributeChangedCallback jsRegexCompile
        { texInitial [] with isUserTyping := true } "value" none (some "x") =
          Except.ok st' ∧
      st'.internalValue = "" ∧ st'.taValue = "" := by
  obtain ⟨st', h1, h2, h3⟩ :=
    c6_typing_guard jsRegexCompile { texInitial [] with isUserTyping := true }
      none (some "x") rfl
  exact ⟨st', h1, h2, h3⟩

/-- **C8**: with a positive maxlength the character counter always shows
`current / max`, carries the error class exactly at ≥ 100 % usage, the
warning class exactly at ≥ 90 % and < 100 %, and no class below 90 %;
without a maxlength only the bare count is shown.  The percentages are the
exact rational comparisons the source's floating-point expression
computes. -/
theorem c8_char_counter (value : String) (maxLength : Int) :
    (maxLength > 0 →
      (texCounter value maxLength).text =
          toString (value.length : Int) ++ " / " ++ toString maxLength ∧
        ((texCounter value maxLength).severity = some Severity.error ↔
          (value.length : Int) * 100 ≥ 100 * maxLength) ∧
        ((texCounter value maxLength).severity = some Severity.warning ↔
          (value.length : Int) * 100 ≥ 90 * maxLength ∧
            (value.length : Int) * 100 < 100 * maxLength) ∧
        ((texCounter value maxLength).severity = none ↔
          (value.length : Int) * 100 < 90 * maxLength)) ∧
    (¬ maxLength > 0 →
      (texCounter value maxLength).text = toString (value.length : Int) ∧
        (texCounter value maxLength).severity = none) := by
  constructor
  · intro h
    simp only [texCounter, if_pos h]
    by_cases h1 : (value.length : Int) * 100 ≥ 100 * maxLength
    · rw [if_pos h1]
      refine ⟨by trivial, iff_of_true rfl h1, ?_, ?_⟩
      · refine iff_of_false (fun hh => ?_) (fun hh => ?_)
        · exact absurd (Option.some.inj hh) (by decide)
        · omega
      · exact iff_of_false (fun hh => Option.noConfusion hh) (by omega)
    · rw [if_neg h1]
      by_cases h2 : (value.length : Int) * 100 ≥ 90 * maxLength
      · rw [if_pos h2]
        refine ⟨by trivial, ?_, iff_of_true rfl ⟨h2, by omega⟩, ?_⟩
        · refine iff_of_false (fun hh => ?_) h1
          exact absurd (Option.some.inj hh) (by decide)
        · exact iff_of_false (fun hh => Option.noConfusion hh) (by omega)
      · rw [if_neg h2]
        refine ⟨by trivial, ?_, ?_, iff_of_true rfl (by omega)⟩
        · exact iff_of_false (fun hh => Option.noConfusion hh.symm) h1
        · exact iff_of_false (fun hh => Option.noConfusion hh.symm) (fun hh => h2 hh.1)
  · intro h
    simp only [texCounter, if_neg h]
    exact ⟨by trivial, by trivial⟩

/-- Witness for `c8_char_counter` at the spec's concrete examples:
lengths 9, 10 and 5 against maxlength 10. -/
theorem c8_char_counter_witness :
    (texCounter "123456789" 10).text = "9 / 10" ∧
    (texCounter "123456789" 10).severity = some Severity.warning ∧
    (texCounter "1234567890" 10).text = "10 / 10" ∧
    (texCounter "1234567890" 10).severity = some Severity.error ∧
    (texCounter "12345" 10).severity = none := by
  have h9 := (c8_char_counter "123456789" 10).1 (by decide)
  have h10 := (c8_char_counter "1234567890" 10).1 (by decide)
  have h5 := (c8_char_counter "12345" 10).1 (by decide)
  refine ⟨?_, h9.2.2.1.mpr (by decide), ?_, h10.2.1.mpr (by decide),
    h5.2.2.2.mpr (by decide)⟩
  · rw [h9.1]; rfl
  · rw [h10.1]; rfl

/-- **C10**: the input widget's `value` getter returns the inner native
input's current text, and the empty string whenever the inner element does
not exist yet; in particular setting the value property before the element
is connected and rendered, then reading it back, yields `""` rather than
the set value (which does land in the `value` attribute). -/
theorem c10_value_getter (st : InputState) (v : String) :
    (st.rendered = none →
      (inputValueSet st v).rendered = none ∧
        inputValueGet (inputValueSet st v) = "" ∧
        getAttr (inputValueSet st v).attrs "value" = some v) ∧
    (∀ r : InputRendered, st.rendered = some r → inputValueGet st = r.inputEl.value) := by
  constructor
  · intro hr
    have hvs : inputValueSet st v = { st with attrs := setAttr st.attrs "value" v } := by
      simp only [inputValueSet, inputSetAttribute, inputAttributeChangedCallback]
      split
      · rfl
      · simp [inputUpdateState, hr]
    refine ⟨?_, ?_, ?_⟩
    · rw [hvs]; exact hr
    · rw [hvs]
      simp [inputValueGet, hr]
    · rw [hvs]
      exact getAttr_setAttr_self st.attrs "value" v
  · intro r hr
    simp [inputValueGet, hr, jsOr_some_empty]

/-- Witness for `c10_value_getter`: a freshly constructed, never-connected
element swallows an early value write. -/
theorem c10_value_getter_witness :
    inputValueGet (inputValueSet (inputInitial []) "secret") = "" ∧
    getAttr (inputValueSet (inputInitial []) "secret").attrs "value" = some "secret" ∧
    inputValueGet
      { attrs := [],
        rendered := some { inputEl := { inputFreshNative with value := "abc" },
                           labelText := "" },
        formValue := none } = "abc" := by
  have h := (c10_value_getter (inputInitial []) "secret").1 rfl
  have h2 := (c10_value_getter
    ({ attrs := [],
       rendered := some { inputEl := { inputFreshNative with value := "abc" },
                          labelText := "" },
       formValue := none } : InputState) "").2 _ rfl
  exact ⟨h.2.1, h.2.2, h2⟩

/-- **C3** (counterexample): on a textarea carrying `pattern="["` — a
pattern the ECMAScript engine rejects — the first keystroke's validation
reaches the uncaught `new RegExp(pattern)` at texteria.js:471 and throws
*before* the `dispatchEvent` call, so typing dispatches no
input-notification event at all; the claim's "exactly one event per
keystroke" therefore fails for this configuration. -/
theorem c3_counterexample :
    texTypeChars jsRegexCompile (texInitial [("pattern", "[")]) "x".data =
      Except.error () ∧
    okEvents (texTypeChars jsRegexCompile (texInitial [("pattern", "[")]) "x".data) =
      none ∧
    jsRegexCompile "[" = none := by
  refine ⟨rfl, rfl, rfl⟩

/-- **C3** (amended): restricted to configurations whose validation cannot
throw — the single-line input unconditionally, the textarea whenever every
set `pattern` attribute is one the host engine accepts (in particular
whenever no pattern is set) — typing any string `s`
keystroke-by-keystroke from an empty value synchronously updates the
internal value, reflects it into the `value` attribute, and dispatches
exactly one input-notification event per keystroke whose `detail.value` is
the value at that point, before the handler returns (the events are the
handler's return value, so dispatch is not deferred); after the full
sequence the `value` attribute equals `s`.  On a textarea whose pattern
the engine rejects, the first keystroke instead throws before any
dispatch, as the counterexample shows. -/
theorem c3_keystroke_sync (s : String) (compile : String → Option (String → Bool))
    (stI : InputState) (rI : InputRendered)
    (hIr : stI.rendered = some rI) (hIv : rI.inputEl.value = "")
    (hIa : getAttr stI.attrs "value" = some "")
    (stT : TexState) (hTv : stT.taValue = "")
    (hTa : getAttr stT.attrs "value" = some "")
    (hTp : patternOk compile (getAttr stT.attrs "pattern")) :
    (getAttr (inputTypeChars stI s.data).1.attrs "value" = some s ∧
      renderedValue (inputTypeChars stI s.data).1 = some s ∧
      inputValueGet (inputTypeChars stI s.data).1 = s ∧
      (inputTypeChars stI s.data).2.length = s.length ∧
      (∀ i, i < s.length → (inputTypeChars stI s.data).2.get? i =
        some { evtName := "input", detailValue := String.mk (s.data.take (i + 1)),
               detailInputType := "insertText" })) ∧
    (((okState (texTypeChars compile stT s.data)).map fun t => getAttr t.attrs "value") =
        some (some s) ∧
      ((okState (texTypeChars compile stT s.data)).map fun t => t.taValue) = some s ∧
      (s ≠ "" →
        ((okState (texTypeChars compile stT s.data)).map fun t => t.internalValue) = some s) ∧
      (okEvents (texTypeChars compile stT s.data)).map List.length = some s.length ∧
      (∀ i, i < s.length →
        (okEvents (texTypeChars compile stT s.data)).map (fun l => l.get? i) =
          some (some { evtName := "texteria-input",
                       detailValue := String.mk (s.data.take (i + 1)),
                       detailCharacterCount := (s.data.take (i + 1)).length }))) := by
  have hs : String.mk (("" : String).data ++ s.data) = s := rfl
  constructor
  · have hIa' : getAttr stI.attrs "value" = some rI.inputEl.value := by
      rw [hIv]; exact hIa
    obtain ⟨h1, h2, h3⟩ := inputTypeChars_spec s.data stI rI hIr hIa'
    rw [hIv, hs] at h1 h2
    rw [hIv] at h3
    refine ⟨h2, h1, ?_, ?_, ?_⟩
    · rcases hr2 : (inputTypeChars stI s.data).1.rendered with _ | r2
      · rw [renderedValue, hr2] at h1
        exact absurd h1 (by simp)
      · rw [renderedValue, hr2] at h1
        have : r2.inputEl.value = s := by simpa using h1
        simp [inputValueGet, hr2, this, jsOr_some_empty]
    · rw [h3, inputEventsSpec_length]
      try rfl
    · intro i hi
      rw [h3, inputEventsSpec_get "" s.data i (by exact hi)]
      try rfl
  · have hTa' : getAttr stT.attrs "value" = some stT.taValue := by
      rw [hTv]; exact hTa
    obtain ⟨t1, t2, t3, t4⟩ := texTypeChars_spec compile s.data stT hTa' hTp
    rw [hTv, hs] at t1 t2
    rw [hTv] at t3 t4
    refine ⟨t2, t1, ?_, ?_, ?_⟩
    · intro hne
      have hd : s.data ≠ [] := by
        intro hh
        apply hne
        rw [← mk_data s, hh]
        try rfl
      have := t4 hd
      rwa [hs] at this
    · rw [t3]
      simp only [Option.map]
      rw [texEventsSpec_length]
      try rfl
    · intro i hi
      rw [t3]
      simp only [Option.map]
      rw [texEventsSpec_get "" s.data i (by exact hi)]
      try rfl

/-- Witness for `c3_keystroke_sync`: typing `"hi"` into freshly prepared
widgets whose value attribute is present and empty — once with no pattern
attribute, and once with the engine-accepted pattern `"h"`. -/
theorem c3_keystroke_sync_witness :
    getAttr (inputTypeChars
        { attrs := [("value", "")],
          rendered := some { inputEl := inputFreshNative, labelText := "" },
          formValue := none } "hi".data).1.attrs "value" = some "hi" ∧
    (inputTypeChars
        { attrs := [("value", "")],
          rendered := some { inputEl := inputFreshNative, labelText := "" },
          formValue := none } "hi".data).2.length = 2 ∧
    ((okState (texTypeChars jsRegexCompile (texInitial [("value", "")]) "hi".data)).map
        fun t => getAttr t.attrs "value") = some (some "hi") ∧
    (okEvents (texTypeChars jsRegexCompile (texInitial [("value", "")]) "hi".data)).map
        List.length = some 2 ∧
    ((okState (texTypeChars jsRegexCompile
        (texInitial [("value", ""), ("pattern", "h")]) "hi".data)).map
        fun t => getAttr t.attrs "value") = some (some "hi") ∧
    (okEvents (texTypeChars jsRegexCompile
        (texInitial [("value", ""), ("pattern", "h")]) "hi".data)).map
        List.length = some 2 := by
  have h := c3_keystroke_sync "hi" jsRegexCompile
    { attrs := [("value", "")],
      rendered := some { inputEl := inputFreshNative, labelText := "" },
      formValue := none }
    { inputEl := inputFreshNative, labelText := "" }
    rfl rfl (by decide)
    (texInitial [("value", "")]) rfl (by decide)
    (patternOk_of_eq_none jsRegexCompile _ (by decide))
  have h2 := c3_keystroke_sync "hi" jsRegexCompile
    { attrs := [("value", "")],
      rendered := some { inputEl := inputFreshNative, labelText := "" },
      formValue := none }
    { inputEl := inputFreshNative, labelText := "" }
    rfl rfl (by decide)
    (texInitial [("value", ""), ("pattern", "h")]) rfl (by decide)
    (by intro q hq
        have hq2 : some "h" = some q := hq
        cases Option.some.inj hq2
        decide)
  exact ⟨h.1.1, h.1.2.2.2.1, h.2.1, h.2.2.2.2.1, h2.2.1, h2.2.2.2.2.1⟩


/-- **C4** (counterexample): the container's `attributeChangedCallback`
takes no parameters and re-runs the full `sync()` pass unconditionally, so
a callback in which the old value equals the new value (here
`layout="grid"` set to its current value) still performs DOM work —
including rewriting the grid-template custom property — contradicting the
claim that old = new is a no-op for every widget. -/
theorem c4_counterexample :
    (containerAttributeChangedCallback [("layout", "grid")] "layout"
        (some "grid") (some "grid")).2 ≠ [] ∧
    DomOp.setProp "--grid-template-columns" "repeat(auto-fit, minmax(250px, 1fr))" ∈
      (containerAttributeChangedCallback [("layout", "grid")] "layout"
        (some "grid") (some "grid")).2 := by
  constructor
  · decide
  · decide

/-- **C4** (amended): for the button, the input and the textarea widgets,
an attribute-change callback with old = new is a no-op — the state is
returned unchanged (for the textarea, without even the trailing aria
update) — while the container re-runs its full synchronization pass
unconditionally, ignoring the old and new values entirely. -/
theorem c4_callback_guard :
    (∀ (st : BtnState) (o : Option String), btnAttributeChangedCallback st o o = st) ∧
    (∀ (st : InputState) (o : Option String), inputAttributeChangedCallback st o o = st) ∧
    (∀ (compile : String → Option (String → Bool)) (st : TexState) (n : String)
        (o : Option String),
      texAttributeChangedCallback compile st n o o = Except.ok st) ∧
    (∀ (attrs : Attrs) (n : String) (o : Option String),
      containerAttributeChangedCallback attrs n o o = containerSync attrs) := by
  refine ⟨?_, ?_, ?_, ?_⟩
  · intro st o
    simp [btnAttributeChangedCallback]
  · intro st o
    simp [inputAttributeChangedCallback]
  · intro compile st n o
    simp [texAttributeChangedCallback]
  · intro attrs n o
    rfl

/-- **C9** (counterexample): `applyGrid` tests `columns` with `/^\d+$/`,
which accepts `"0"`; `0` is not a positive integer, so the claim requires
the auto-fit template, but the code emits the fixed template
`repeat(0, 1fr)` verbatim. -/
theorem c9_counterexample :
    containerGridTemplate [("layout", "grid"), ("columns", "0")] = "repeat(0, 1fr)" ∧
    containerGridTemplate [("layout", "grid"), ("columns", "0")] ≠
      "repeat(auto-fit, minmax(250px, 1fr))" ∧
    jsParseInt "0" = some 0 := by
  refine ⟨?_, ?_, ?_⟩
  · decide
  · decide
  · decide

/-- **C9** (amended): if the `columns` attribute is any non-empty
digit-only string `c` — a nonnegative integer numeral, including `"0"` and
leading-zero forms, not only positive integers — the grid template is
`repeat(c, 1fr)` with `c` verbatim; otherwise it is
`repeat(auto-fit, minmax(w, 1fr))` where `w` is the normalized
`min-column-width`, defaulting to `250px`; a digit-only width receives a
`px` suffix and any other non-empty width value passes through
verbatim. -/
theorem c9_grid_template (attrs : Attrs) (c w : String) :
    (getAttr attrs "columns" = some c → jsDigitsOnly c = true →
      containerGridTemplate attrs = "repeat(" ++ c ++ ", 1fr)") ∧
    ((getAttr attrs "columns" = none ∨
        (getAttr attrs "columns" = some c ∧ jsDigitsOnly c = false)) →
      containerGridTemplate attrs =
        "repeat(auto-fit, minmax(" ++
          normalizeUnit (some (jsOr (getAttr attrs "min-column-width") "250px")) ++
          ", 1fr))") ∧
    (getAttr attrs "min-column-width" = none →
      normalizeUnit (some (jsOr (getAttr attrs "min-column-width") "250px")) = "250px") ∧
    (getAttr attrs "min-column-width" = some w → w ≠ "" → jsDigitsOnly w = true →
      normalizeUnit (some (jsOr (getAttr attrs "min-column-width") "250px")) = w ++ "px") ∧
    (getAttr attrs "min-column-width" = some w → w ≠ "" → jsDigitsOnly w = false →
      normalizeUnit (some (jsOr (getAttr attrs "min-column-width") "250px")) = w) := by
  refine ⟨?_, ?_, ?_, ?_, ?_⟩
  · intro h1 h2
    simp [containerGridTemplate, h1, h2]
  · intro h
    rcases h with h | ⟨h1, h2⟩
    · simp [containerGridTemplate, h]
    · simp [containerGridTemplate, h1, h2]
  · intro h
    simp [jsOr, h, normalizeUnit, jsDigitsOnly]
  · intro h hne hd
    simp [jsOr, h, hne, normalizeUnit, hd]
  · intro h hne hd
    simp [jsOr, h, hne, normalizeUnit, hd]

/-- Witness for `c9_grid_template` at the spec's concrete examples:
`columns="3"`, and no columns with `min-column-width="200px"` or with the
width left unset. -/
theorem c9_grid_template_witness :
    containerGridTemplate [("layout", "grid"), ("columns", "3")] = "repeat(3, 1fr)" ∧
    containerGridTemplate [("layout", "grid"), ("min-column-width", "200px")] =
      "repeat(auto-fit, minmax(200px, 1fr))" ∧
    containerGridTemplate [("layout", "grid"), ("min-column-width", "200")] =
      "repeat(auto-fit, minmax(200px, 1fr))" ∧
    containerGridTemplate [("layout", "grid")] =
      "repeat(auto-fit, minmax(250px, 1fr))" := by
  have h3 := (c9_grid_template [("layout", "grid"), ("columns", "3")] "3" "").1
    (by decide) (by decide)
  have hpx := (c9_grid_template [("layout", "grid"), ("min-column-width", "200px")]
    "" "200px").2.1 (Or.inl (by decide))
  have hpx2 := (c9_grid_template [("layout", "grid"), ("min-column-width", "200px")]
    "" "200px").2.2.2.2 (by decide) (by decide) (by decide)
  have hn := (c9_grid_template [("layout", "grid"), ("min-column-width", "200")]
    "" "200").2.1 (Or.inl (by decide))
  have hn2 := (c9_grid_template [("layout", "grid"), ("min-column-width", "200")]
    "" "200").2.2.2.1 (by decide) (by decide) (by decide)
  have hd := (c9_grid_template [("layout", "grid")] "" "").2.1 (Or.inl (by decide))
  have hd2 := (c9_grid_template [("layout", "grid")] "" "").2.2.1 (by decide)
  refine ⟨by rw [h3]; decide, ?_, ?_, ?_⟩
  · rw [hpx, hpx2]; decide
  · rw [hn, hn2]; decide
  · rw [hd, hd2]; decide

/-- **C1** (counterexample): the single-line input widget's `handleInput`
performs no suppression check at all — with the `disabled` attribute
present it still mutates the `value` attribute and dispatches an `input`
custom event (and never calls preventDefault/stopPropagation), so the
claim that *every* widget's interaction handler checks the suppression
flags first and has zero side effects while disabled is false.  (In a live
document the platform withholds events from the disabled inner control;
the handler itself implements no guard.) -/
theorem c1_counterexample :
    hasAttr ([("disabled", "")] : Attrs) "disabled" = true ∧
    (inputHandleInput
        { attrs := [("disabled", "")],
          rendered := some { inputEl := inputFreshNative, labelText := "" },
          formValue := none } "x" "insertText").2 =
      [{ evtName := "input", detailValue := "x", detailInputType := "insertText" }] ∧
    getAttr (inputHandleInput
        { attrs := [("disabled", "")],
          rendered := some { inputEl := inputFreshNative, labelText := "" },
          formValue := none } "x" "insertText").1.attrs "value" = some "x" := by
  refine ⟨?_, ?_, ?_⟩
  · decide
  · decide
  · decide

/-- **C1** (amended): only the button's click handler checks the
suppression flags — with `disabled` or `loading` present it prevents
default, stops propagation, emits nothing and mutates nothing before any
other logic.  The editable widgets' input handlers perform no such check
(they dispatch unconditionally); their suppression is delegated to the
platform by reflecting the `disabled` attribute onto the inner native
control, which then receives no interaction events. -/
theorem c1_suppression (attrs : Attrs) (st : InputState) (r : InputRendered)
    (compile : String → Option (String → Bool)) (stT : TexState)
    (oldV : Option String) (tv kind : String) :
    ((hasAttr attrs "disabled" = true ∨ hasAttr attrs "loading" = true) →
      btnHandleClick attrs =
        { events := [], defaultPrevented := true, propagationStopped := true }) ∧
    (st.rendered = some r → hasAttr st.attrs "disabled" = true →
      ((inputUpdateState st).rendered.map fun p => p.inputEl.fieldDisabled) = some true) ∧
    (oldV ≠ some "" →
      ∃ st', texAttributeChangedCallback compile stT "disabled" oldV (some "") =
          Except.ok st' ∧ st'.taDisabled = true) ∧
    ((inputHandleInput st tv kind).2 =
      [{ evtName := "input", detailValue := tv, detailInputType := kind }]) := by
  refine ⟨?_, ?_, ?_, rfl⟩
  · intro h
    rcases h with h | h <;> simp [btnHandleClick, h]
  · intro hr hd
    simp [inputUpdateState, hr, hd]
  · intro hne
    simp only [texAttributeChangedCallback, if_neg hne]
    refine ⟨_, rfl, ?_⟩
    simp

/-- Witness for `c1_suppression` at concrete disabled widgets. -/
theorem c1_suppression_witness :
    btnHandleClick [("disabled", "")] =
      { events := [], defaultPrevented := true, propagationStopped := true } ∧
    ((inputUpdateState
        { attrs := [("disabled", "")],
          rendered := some { inputEl := inputFreshNative, labelText := "" },
          formValue := none }).rendered.map fun p => p.inputEl.fieldDisabled) =
      some true ∧
    (∃ st', texAttributeChangedCallback jsRegexCompile (texInitial []) "disabled"
        none (some "") = Except.ok st' ∧ st'.taDisabled = true) := by
  have h := c1_suppression [("disabled", "")]
    { attrs := [("disabled", "")],
      rendered := some { inputEl := inputFreshNative, labelText := "" },
      formValue := none }
    { inputEl := inputFreshNative, labelText := "" }
    jsRegexCompile (texInitial []) none "x" "insertText"
  exact ⟨h.1 (Or.inl (by decide)), h.2.1 rfl (by decide), h.2.2.1 (by decide)⟩

/-- `setValue` completes without exception on a pattern-free widget and
lands the new value in the internal value, the native text and the
`value` attribute, with the counter recomputed from it — with no
`disabled` guard anywhere on the path. -/
theorem texSetValue_spec (compile : String → Option (String → Bool))
    (st : TexState) (v : String) (hp : getAttr st.attrs "pattern" = none) :
    ∃ st', texSetValue compile st v = Except.ok st' ∧
      st'.internalValue = v ∧ st'.taValue = v ∧
      getAttr st'.attrs "value" = some v ∧
      st'.counter = texCounter v st'.taMaxLength := by
  obtain ⟨stX, hX, hXi, hXt, hXa, hXm⟩ := texSetAttributeValue_fields compile
    { st with internalValue := v, taValue := v } v rfl rfl
    (patternOk_of_eq_none compile _ (by simpa using hp))
  obtain ⟨vd2, hvd2⟩ := texRunValidation_pattern_none compile
    { stX with counter := texCounter stX.internalValue stX.taMaxLength }
    (by rw [show ({ stX with
            counter := texCounter stX.internalValue stX.taMaxLength } : TexState).attrs =
          stX.attrs from rfl, hXa, getAttr_setAttr_ne _ "value" "pattern" v (by decide)]
        exact hp)
  refine ⟨{ { stX with counter := texCounter stX.internalValue stX.taMaxLength } with
      validity := vd2 }, ?_, ?_, ?_, ?_, ?_⟩
  · show texSetValue compile st v = _
    simp only [texSetValue]
    rw [hX, texSetValueTail_ok, hvd2]
  · simp [hXi]
  · simp [hXt]
  · simp only [show ({ { stX with
        counter := texCounter stX.internalValue stX.taMaxLength } with
          validity := vd2 } : TexState).attrs = stX.attrs from rfl]
    rw [hXa]
    exact getAttr_setAttr_self _ "value" v
  · simp [hXi, hXm]

/-- **C5** (counterexample): the button's public `click()` checks
`disabled`/`loading` itself (imara-button.js:325) and does nothing while
either is present, so — contrary to the claim — no click-notification
event is dispatched by a programmatic `click()` on a disabled or loading
button. -/
theorem c5_counterexample :
    (btnRendered [("disabled", "")]).button.isSome = true ∧
    hasAttr (btnRendered [("disabled", "")]).attrs "disabled" = true ∧
    btnClickPublic (btnRendered [("disabled", "")]) = [] ∧
    (btnRendered [("loading", "")]).button.isSome = true ∧
    btnClickPublic (btnRendered [("loading", "")]) = [] := by
  refine ⟨?_, ?_, ?_, ?_, ?_⟩ <;> decide

/-- **C5** (amended): `setValue` (and hence `clear`), `focus` and `blur`
are not blocked by the suppression flags — `setValue` on a widget with any
attribute set, `disabled` included, performs the same derived-state
recomputation as an equivalent attribute mutation.  The button's
programmatic `click()`, however, respects the `disabled`/`loading` guard:
while either flag is present it dispatches nothing, and with both absent
it dispatches exactly the one click-notification a user click would. -/
theorem c5_public_api (st : BtnState) (compile : String → Option (String → Bool))
    (stT : TexState) (v : String) :
    (st.button.isSome = true →
      (hasAttr st.attrs "disabled" = true ∨ hasAttr st.attrs "loading" = true) →
      btnClickPublic st = []) ∧
    (st.button.isSome = true →
      hasAttr st.attrs "disabled" = false → hasAttr st.attrs "loading" = false →
      btnClickPublic st = (btnHandleClick st.attrs).events ∧
        (btnClickPublic st).length = 1) ∧
    (getAttr stT.attrs "pattern" = none →
      ∃ st', texSetValue compile stT v = Except.ok st' ∧
        st'.internalValue = v ∧ st'.taValue = v ∧
        getAttr st'.attrs "value" = some v ∧
        st'.counter = texCounter v st'.taMaxLength) := by
  refine ⟨?_, ?_, ?_⟩
  · intro hb h
    rcases hbs : st.button with _ | b
    · rw [hbs] at hb
      exact absurd hb (by simp)
    · rcases h with h | h <;> simp [btnClickPublic, hbs, h]
  · intro hb hd hl
    rcases hbs : st.button with _ | b
    · rw [hbs] at hb
      exact absurd hb (by simp)
    · constructor
      · simp [btnClickPublic, hbs, hd, hl]
      · simp [btnClickPublic, btnHandleClick, hbs, hd, hl]
  · intro hp
    exact texSetValue_spec compile stT v hp

/-- Witness for `c5_public_api`: a disabled rendered button swallows
`click()`, an enabled one emits exactly one event, and `setValue` still
runs to completion on a textarea carrying the `disabled` attribute. -/
theorem c5_public_api_witness :
    btnClickPublic (btnRendered [("disabled", "")]) = [] ∧
    (btnClickPublic (btnRendered [])).length = 1 ∧
    (∃ st', texSetValue jsRegexCompile (texInitial [("disabled", "")]) "forced" =
        Except.ok st' ∧
      st'.internalValue = "forced" ∧ st'.taValue = "forced" ∧
      getAttr st'.attrs "value" = some "forced" ∧
      st'.counter = texCounter "forced" st'.taMaxLength) := by
  have h1 := (c5_public_api (btnRendered [("disabled", "")]) jsRegexCompile
    (texInitial [("disabled", "")]) "forced").1 (by decide) (Or.inl (by decide))
  have h2 := (c5_public_api (btnRendered []) jsRegexCompile
    (texInitial [("disabled", "")]) "forced").2.1 (by decide) (by decide) (by decide)
  have h3 := (c5_public_api (btnRendered []) jsRegexCompile
    (texInitial [("disabled", "")]) "forced").2.2 (by decide)
  exact ⟨h1, h2.2, h3⟩

/-- **C2** (counterexample): `updateValidation` tests
`!this._value.trim()`, so a whitespace-only value counts as empty for the
`required` rule — for every character `String.prototype.trim` strips,
including the vertical tab `"\x0B"`.  With `required` set, no minlength
and no pattern, the values `" "` and `"\x0B"` are non-empty, so the
claim's rule chain ends in "otherwise the widget is valid" — but the code
reports invalid with the required message. -/
theorem c2_counterexample :
    texUpdateValidation jsRegexCompile true (-1) none none " " =
      Except.ok { isValid := false, message := "This field is required" } ∧
    texUpdateValidation jsRegexCompile true (-1) none none "\x0B" =
      Except.ok { isValid := false, message := "This field is required" } ∧
    (" " : String) ≠ "" ∧ ("\x0B" : String) ≠ "" ∧ ¬((-1 : Int) > 0) := by
  refine ⟨rfl, rfl, by decide, by decide, by decide⟩

/-- **C2** (amended): validity is recomputed with priority
required > minlength > pattern and the first failing rule wins, where the
required rule fires on a value that is empty *or whitespace-only* (the
value is trimmed before the emptiness test): required with a trim-empty
value yields invalid with the required message; otherwise a non-empty
value shorter than minlength yields invalid with the length message;
otherwise a non-empty value failing a compiling pattern yields invalid
with the pattern message; otherwise the widget is valid.  (A non-empty
`validation-message` attribute replaces each message.) -/
theorem c2_validity_rules (compile : String → Option (String → Bool))
    (required : Bool) (minLength : Int) (pattern vmsg : Option String)
    (value : String) :
    (required = true → jsTrim value = "" →
      texUpdateValidation compile required minLength pattern vmsg value =
        Except.ok { isValid := false, message := jsOr vmsg "This field is required" }) ∧
    (¬(required = true ∧ jsTrim value = "") →
      (minLength > 0 ∧ 0 < value.length ∧ (value.length : Int) < minLength) →
      texUpdateValidation compile required minLength pattern vmsg value =
        Except.ok { isValid := false, message := jsOr vmsg ("Minimum " ++ toString minLength ++ " characters required") }) ∧
    (∀ (p : String) (m : String → Bool),
      ¬(required = true ∧ jsTrim value = "") →
      ¬(minLength > 0 ∧ 0 < value.length ∧ (value.length : Int) < minLength) →
      pattern = some p → p ≠ "" → 0 < value.length →
      compile p = some m → m value = false →
      texUpdateValidation compile required minLength pattern vmsg value =
        Except.ok { isValid := false, message := jsOr vmsg "Please match the required format" }) ∧
    (¬(required = true ∧ jsTrim value = "") →
      ¬(minLength > 0 ∧ 0 < value.length ∧ (value.length : Int) < minLength) →
      (pattern = none ∨ ∃ p, pattern = some p ∧
        (p = "" ∨ value.length = 0 ∨ ∃ m, compile p = some m ∧ m value = true)) →
      texUpdateValidation compile required minLength pattern vmsg value =
        Except.ok { isValid := true, message := "" }) := by
  refine ⟨?_, ?_, ?_, ?_⟩
  · intro h1 h2
    simp only [texUpdateValidation]
    rw [if_pos (And.intro h1 h2)]
  · intro hn h1
    simp only [texUpdateValidation]
    rw [if_neg hn, if_pos h1]
  · intro p m hn1 hn2 hpp hpne hlen hcm hm
    simp only [texUpdateValidation, if_neg hn1, if_neg hn2, hpp, hcm]
    rw [if_pos (And.intro hpne hlen), if_pos hm]
  · intro hn1 hn2 hc
    simp only [texUpdateValidation, if_neg hn1, if_neg hn2]
    rcases hc with hnone | ⟨p, hpp, hrest⟩
    · simp [hnone]
    · simp only [hpp]
      rcases hrest with hpe | hv0 | ⟨m, hcm, hmv⟩
      · rw [if_neg (by simp [hpe])]
      · rw [if_neg (by simp [hv0])]
      · by_cases hcond : p ≠ "" ∧ 0 < value.length
        · rw [if_pos hcond]
          simp only [hcm]
          rw [if_neg (by simp [hmv])]
        · rw [if_neg hcond]

/-- Witness for `c2_validity_rules`: one concrete instance of each of the
four rules, with the model engine standing in for the host `RegExp` — the
required rule both on the empty value and on the JS-whitespace-only value
`"\x0B"`. -/
theorem c2_validity_rules_witness :
    texUpdateValidation jsRegexCompile true (-1) none none "" =
      Except.ok { isValid := false, message := "This field is required" } ∧
    texUpdateValidation jsRegexCompile true (-1) none none "\x0B" =
      Except.ok { isValid := false, message := "This field is required" } ∧
    texUpdateValidation jsRegexCompile false 5 none none "ab" =
      Except.ok { isValid := false, message := "Minimum 5 characters required" } ∧
    texUpdateValidation jsRegexCompile false (-1) (some "xyz") none "ab" =
      Except.ok { isValid := false, message := "Please match the required format" } ∧
    texUpdateValidation jsRegexCompile false (-1) none none "ab" =
      Except.ok { isValid := true, message := "" } := by
  have h1 := (c2_validity_rules jsRegexCompile true (-1) none none "").1
    rfl (by decide)
  have h1b := (c2_validity_rules jsRegexCompile true (-1) none none "\x0B").1
    rfl (by decide)
  have h2 := (c2_validity_rules jsRegexCompile false 5 none none "ab").2.1
    (by simp) (by refine ⟨by decide, by decide, by decide⟩)
  have h3 := (c2_validity_rules jsRegexCompile false (-1) (some "xyz") none "ab").2.2.1
    "xyz" (fun s => jsRegexCompile.occursIn "xyz".data s.data)
    (by simp) (by decide) rfl (by decide) (by decide) rfl (by decide)
  have h4 := (c2_validity_rules jsRegexCompile false (-1) none none "ab").2.2.2
    (by simp) (by decide) (Or.inl rfl)
  refine ⟨?_, ?_, ?_, ?_, ?_⟩
  · rw [h1]; rfl
  · rw [h1b]; rfl
  · rw [h2]; rfl
  · rw [h3]; rfl
  · rw [h4]

end Imara
